import Mathlib

/-!
Verification of the location-resolution and search-ranking core of the
ToolDetectionAndSearch repository, shallowly embedded in Lean.

The embedded code is `src/ToolDetectionFrontend/src/services/locationService.js`
(reverse geocoding `getLocationName`, its retry wrapper
`getLocationNameWithRetry`, forward search `searchLocations` with
`calculateDistance` and `calculateRelevanceScore`, and the validator
`isValidCoordinates`) together with `setManualLocation` from
`src/ToolDetectionFrontend/src/hooks/useGeolocation.jsx`.

Modelling conventions:
* JS numbers are modelled as `ℚ` (the haversine distance, which is
  transcendental, is modelled over `ℝ` in its own section).  Where `NaN`
  matters (coordinate validation) a dedicated `JsNum` type with a `nan`
  constructor is used.
* Possibly-missing JS fields are `Option`; JS truthiness of a string field
  (`undefined`/`null`/`""` are falsy) is the `truthy` predicate below, and
  the JS `||` operator on such fields is `jsOr`/`jsOrS`/`jsOrQ`.
* `fetch` plus JSON decoding is modelled by a `FetchOutcome` value: either a
  network-level rejection or an HTTP status code with a decoded payload.
  A `throw` inside the `try` block of `getLocationName` is an
  `Except.error` carrying the `Error` message.
-/

/-- JS truthiness of a possibly-absent string: `undefined`, `null` and the
empty string are falsy, every other string is truthy. -/
def truthy : Option String → Bool
  | none => false
  | some s => !s.isEmpty

/-- JS `a || b` on possibly-absent strings: yields `a` when `a` is truthy,
otherwise `b`. -/
def jsOr (a b : Option String) : Option String :=
  if truthy a then a else b

/-- JS `a || d` where the fallback `d` is a string literal (always truthy). -/
def jsOrS (a : Option String) (d : String) : String :=
  if truthy a then a.getD ("") else d

/-- JS `a || d` on numbers: `undefined`, `null` and `0` are falsy
(`NaN` does not occur on the paths embedded here). -/
def jsOrQ (a : Option ℚ) (d : ℚ) : ℚ :=
  match a with
  | some q => if q = 0 then d else q
  | none => d

/-- JS `String.prototype.includes` on character lists: `pat` occurs
contiguously inside the haystack. -/
def listContains (pat : List Char) : List Char → Bool
  | [] => pat.isEmpty
  | c :: t => pat.isPrefixOf (c :: t) || listContains pat t

/-- JS `s.includes(pat)`. -/
def jsIncludes (s pat : String) : Bool :=
  listContains pat.toList s.toList

/-- `Number.prototype.toFixed(digits)` for the exactly-representable inputs
that occur here: decimal rendering of `q` rounded to `digits` places. -/
def toFixed (digits : ℕ) (q : ℚ) : String :=
  let m : ℤ := round (q * (10 : ℚ) ^ digits)
  let sign := if m < 0 then ("-") else ("")
  let mabs := m.natAbs
  let ip := mabs / 10 ^ digits
  let fp := mabs % 10 ^ digits
  let fpStr := toString fp
  let pad := String.mk (List.replicate (digits - fpStr.length) '0')
  sign ++ toString ip ++ (".") ++ pad ++ fpStr

/-- A JS number as received from the geolocation API: either an actual
(rational-modelled) number or `NaN`.  Non-numeric values (strings,
`undefined`) also fail the `typeof latitude === 'number'` guard of the
source; they are outside this type and rejected for the same reason `nan`
is. -/
inductive JsNum where
  | nan : JsNum
  | num : ℚ → JsNum
deriving DecidableEq

/-- `isValidCoordinates` (locationService.js lines 10-21): the `typeof`
and `isNaN` guards reject `nan`; numeric values are range-checked. -/
def isValidCoordinates : JsNum → JsNum → Bool
  | .num lat, .num lon =>
      decide (-90 ≤ lat) && decide (lat ≤ 90) &&
      decide (-180 ≤ lon) && decide (lon ≤ 180)
  | _, _ => false

/-- Spec-side notion of a well-formed coordinate pair: both components are
numbers (not NaN) and within [-90,90] × [-180,180]. -/
def coordValid (a b : JsNum) : Prop :=
  ∃ lat lon : ℚ, a = .num lat ∧ b = .num lon ∧
    -90 ≤ lat ∧ lat ≤ 90 ∧ -180 ≤ lon ∧ lon ≤ 180

/-- The structured address breakdown of a Nominatim payload
(`data.address`); absent fields are `none`. -/
structure Address where
  house_number : Option String
  road : Option String
  suburb : Option String
  neighbourhood : Option String
  city : Option String
  town : Option String
  village : Option String
  state : Option String
  country : Option String
deriving DecidableEq

/-- The address object with no fields, JS `{}` (used for `data.address || {}`). -/
def emptyAddress : Address :=
  ⟨none, none, none, none, none, none, none, none, none⟩

/-- A decoded Nominatim reverse-geocoding payload. -/
structure ReverseResponse where
  error : Option String
  display_name : Option String
  address : Option Address
  importance : Option ℚ
deriving DecidableEq

/-- Outcome of `await fetch(...)` plus `await response.json()`: a
network-level rejection (carrying the `Error` message) or an HTTP status
with a decoded payload. -/
inductive FetchOutcome where
  | networkError : String → FetchOutcome
  | http : ℕ → ReverseResponse → FetchOutcome
deriving DecidableEq

/-- The object resolved by `getLocationName` (the spec's ResolvedPlace). -/
structure LocationResult where
  name : String
  fullAddress : String
  city : String
  state : String
  country : String
  coordinates : ℚ × ℚ
  accuracy : ℚ
  error : Option String
deriving DecidableEq

/-- The `locationParts` array built by `getLocationName`
(locationService.js lines 99-124): sequential conditional pushes of
house-number+road / road, suburb / neighbourhood, city‖town‖village,
state, country. -/
def assembleLocationParts (address : Address) : List String :=
  let parts0 : List String := []
  let parts1 :=
    if truthy address.house_number && truthy address.road then
      parts0 ++ [address.house_number.getD ("") ++ (" ") ++ address.road.getD ("")]
    else if truthy address.road then
      parts0 ++ [address.road.getD ("")]
    else parts0
  let parts2 :=
    if truthy address.suburb then parts1 ++ [address.suburb.getD ("")]
    else if truthy address.neighbourhood then parts1 ++ [address.neighbourhood.getD ("")]
    else parts1
  let parts3 :=
    if truthy (jsOr (jsOr address.city address.town) address.village) then
      parts2 ++ [jsOrS (jsOr (jsOr address.city address.town) address.village) ("")]
    else parts2
  let parts4 :=
    if truthy address.state then parts3 ++ [address.state.getD ("")]
    else parts3
  if truthy address.country then parts4 ++ [address.country.getD ("")]
  else parts4

/-- The `try` block of `getLocationName` (locationService.js lines 54-141):
every `throw` is an `Except.error` with the thrown message.  The fetch has
already happened (its outcome is the `resp` argument): no branch of the
source precedes it, in particular no coordinate validation. -/
def getLocationNameBody (lat lon : ℚ) (resp : FetchOutcome) : Except String LocationResult :=
  match resp with
  | .networkError msg => .error msg
  | .http status data =>
    -- `if (!response.ok)`: fetch sets ok iff the status is in [200, 300)
    if ¬(200 ≤ status ∧ status < 300) then
      if status = 429 then .error ("Rate limit exceeded. Please wait a moment and try again.")
      else if status = 403 then .error ("Access forbidden. Please check your internet connection.")
      else .error (("HTTP error! status: ") ++ toString status)
    -- `if (!data || data.error)`: a decoded payload is never null here
    else if truthy data.error then
      .error (jsOrS data.error ("Location not found"))
    -- `if (!data.display_name && !data.address)`: an object is always truthy
    else if ¬truthy data.display_name ∧ data.address = none then
      .error ("No location data received")
    else
      let address := data.address.getD emptyAddress
      let name := jsOrS data.display_name ("Unknown Location")
      let locationParts := assembleLocationParts address
      let readableName :=
        if locationParts.length > 0 then String.intercalate (", ") locationParts else name
      .ok
        { name := readableName
          fullAddress := name
          city := jsOrS (jsOr (jsOr address.city address.town) address.village) ("Unknown City")
          state := jsOrS address.state ("Unknown State")
          country := jsOrS address.country ("Unknown Country")
          coordinates := (lat, lon)
          accuracy := jsOrQ data.importance (1/2)
          error := none }

/-- The `catch` fallback of `getLocationName` (locationService.js lines
147-159): a result built purely from the formatted coordinate, with
"Unknown" placeholders, accuracy 0.1 and the error message recorded. -/
def fallbackResult (lat lon : ℚ) (msg : String) : LocationResult :=
  { name := toFixed 4 lat ++ (", ") ++ toFixed 4 lon
    fullAddress := ("Coordinates: ") ++ toFixed 6 lat ++ (", ") ++ toFixed 6 lon
    city := ("Unknown City")
    state := ("Unknown State")
    country := ("Unknown Country")
    coordinates := (lat, lon)
    accuracy := 1/10
    error := some msg }

/-- `getLocationName` (locationService.js lines 53-161): the `try` body
with the catch-all fallback.  Total: it returns a plain value for every
input. -/
def getLocationName (lat lon : ℚ) (resp : FetchOutcome) : LocationResult :=
  match getLocationNameBody lat lon resp with
  | .ok r => r
  | .error e => fallbackResult lat lon e

/-- `getLocationName` with an explicit record of whether the provider
request was issued.  The source awaits the fetch unconditionally (line 61)
before any check, so the flag is `true` on every path. -/
def getLocationNameTrace (lat lon : ℚ) (fetch : ℚ → ℚ → FetchOutcome) :
    Bool × LocationResult :=
  let resp := fetch lat lon
  (true, getLocationName lat lon resp)

/-- One JS-level call of `getLocationName` inside the retry wrapper, as an
`Except`: an `Except.error` would be a rejected promise reaching the
wrapper's `catch`.  Since `getLocationName` is total, the call always
resolves (`Except.ok`); `attempt` indexes the provider response used. -/
def getLocationNameCall (lat lon : ℚ) (responses : ℕ → FetchOutcome) (attempt : ℕ) :
    Except String LocationResult :=
  Except.ok (getLocationName lat lon (responses attempt))

/-- `getLocationNameWithRetry` (locationService.js lines 30-45), abstracted
over the JS-level call: on a rejection with `retryCount < 2` it waits
(`1000 * (retryCount + 1)` ms, irrelevant to values) and recurses with
`retryCount + 1`, otherwise it rethrows.  The returned `ℕ` counts how many
calls (provider attempts) were made. -/
def getLocationNameWithRetryAux (call : ℕ → Except String LocationResult)
    (attempt retryCount : ℕ) : ℕ × Except String LocationResult :=
  match call attempt with
  | .ok r => (attempt + 1, .ok r)
  | .error e =>
    if retryCount < 2 then
      getLocationNameWithRetryAux call (attempt + 1) (retryCount + 1)
    else (attempt + 1, .error e)
termination_by 2 - retryCount
decreasing_by omega

/-- `getLocationNameWithRetry(lat, lon)` with the default `retryCount = 0`. -/
def getLocationNameWithRetry (lat lon : ℚ) (responses : ℕ → FetchOutcome) :
    ℕ × Except String LocationResult :=
  getLocationNameWithRetryAux (getLocationNameCall lat lon responses) 0 0

/-- The React state owned by `useGeolocation` that `setManualLocation`
touches.  `location` is (latitude, longitude, accuracy). -/
structure GeoState where
  location : Option (ℚ × ℚ × Option ℚ)
  locationName : Option LocationResult
  loading : Bool
  error : Option String
deriving DecidableEq

/-- `setManualLocation` (useGeolocation.jsx lines 94-107) as a state
transformer: sets loading, clears error, awaits `getLocationName` (which
always resolves, so the `catch` branch is unreachable), stores the
location with `accuracy: null` and the resolved name, and finally clears
loading. -/
def setManualLocation (lat lon : ℚ) (resp : FetchOutcome) (s : GeoState) : GeoState :=
  let s1 : GeoState := { s with loading := true, error := none }
  match (Except.ok (getLocationName lat lon resp) : Except String LocationResult) with
  | .ok r =>
    { s1 with
      location := some (lat, lon, (none : Option ℚ))
      locationName := some r
      loading := false }
  | .error e => { s1 with error := some e, loading := false }

/-- A raw item of the Nominatim forward-search payload, as consumed by
`searchLocations` (`item.lat`/`item.lon` arrive as strings and are parsed
with `parseFloat`; they are modelled already-parsed). -/
structure SearchItem where
  lat : ℚ
  lon : ℚ
  display_name : String
  importance : Option ℚ
  type : Option String
  address : Option Address
deriving DecidableEq

/-- A processed search candidate (the spec's PlaceCandidate), as built by
the `data.map` in `searchLocations` (locationService.js lines 411-437). -/
structure SearchResult where
  name : String
  coordinates : ℚ × ℚ
  importance : ℚ
  type : Option String
  address : Option Address
  distance : Option ℚ
  relevanceScore : ℚ
deriving DecidableEq

/-- `calculateRelevanceScore` (locationService.js lines 482-522),
accumulating into `score` exactly as the source does. -/
def calculateRelevanceScore (item : SearchItem) (query : String) (distance : Option ℚ) : ℚ :=
  let score0 : ℚ := 0
  -- score += (item.importance || 0) * 10
  let score1 := score0 + jsOrQ item.importance 0 * 10
  let queryLower := query.toLower
  let displayName := item.display_name.toLower
  -- if (displayName.includes(queryLower)) score += 50
  let score2 := if jsIncludes displayName queryLower then score1 + 50 else score1
  -- queryWords.forEach(word => { if (displayName.includes(word)) wordMatches++ })
  let queryWords := queryLower.splitOn (" ")
  let wordMatches := (queryWords.filter (fun word => jsIncludes displayName word)).length
  let score3 := score2 + (wordMatches : ℚ) * 10
  -- distance bonus
  let score4 :=
    match distance with
    | some d =>
      if d < 1 then score3 + 30
      else if d < 5 then score3 + 20
      else if d < 20 then score3 + 10
      else score3 + 5
    | none => score3
  -- type-based bonus
  if item.type = some ("house") ∨ item.type = some ("building") then score4 + 15
  else if item.type = some ("street") then score4 + 12
  else if item.type = some ("city") then score4 + 8
  else if item.type = some ("state") then score4 + 5
  else score4

/-- The comparator passed to `results.sort` (locationService.js lines
440-449); a negative value orders `a` before `b`. -/
def compareResults (a b : SearchResult) : ℚ :=
  match a.distance, b.distance with
  | some da, some db =>
    if |da - db| < 1 then b.relevanceScore - a.relevanceScore
    else da - db
  | _, _ => b.relevanceScore - a.relevanceScore

/-- One step of the `data.map` in `searchLocations` (lines 411-437):
distance is computed only when the current location is supplied and both
of its components are truthy (nonzero); `distFn` abstracts
`calculateDistance`, whose transcendental value is irrelevant to the
claims about this pipeline. -/
def searchItemResult (distFn : ℚ → ℚ → ℚ → ℚ → ℚ) (query : String)
    (currentLocation : Option (ℚ × ℚ)) (item : SearchItem) : SearchResult :=
  let coords := (item.lat, item.lon)
  let distance : Option ℚ :=
    match currentLocation with
    | some (clat, clon) =>
      if clat ≠ 0 ∧ clon ≠ 0 then some (distFn clat clon item.lat item.lon) else none
    | none => none
  { name := item.display_name
    coordinates := coords
    importance := jsOrQ item.importance 0
    type := item.type
    address := item.address
    distance := distance
    relevanceScore := calculateRelevanceScore item query distance }

/-- The result-shaping tail of `searchLocations` (lines 411-457): map the
raw items, sort with the comparator (`Array.prototype.sort` modelled as a
sorting permutation), and keep the top 8. -/
def searchLocationsResults (distFn : ℚ → ℚ → ℚ → ℚ → ℚ) (query : String)
    (currentLocation : Option (ℚ × ℚ)) (data : List SearchItem) : List SearchResult :=
  let results := data.map (searchItemResult distFn query currentLocation)
  let sortedResults := results.mergeSort (fun a b => decide (compareResults a b ≤ 0))
  sortedResults.take 8

/-! ### Spec-side definitions

Transcriptions of the spec's wording, to be compared with the definitions
embedded from the source. -/

/-- Spec: distance bonus when `distanceKm` is known: `+30` if <1km, `+20`
if <5km, `+10` if <20km, else `+5`; nothing when unknown. -/
def specDistanceBonus : Option ℚ → ℚ
  | none => 0
  | some d => if d < 1 then 30 else if d < 5 then 20 else if d < 20 then 10 else 5

/-- Spec: place-type bonus: house/building `+15`, street `+12`, city `+8`,
state `+5`, else `+0`. -/
def specTypeBonus (t : Option String) : ℚ :=
  if t = some ("house") ∨ t = some ("building") then 15
  else if t = some ("street") then 12
  else if t = some ("city") then 8
  else if t = some ("state") then 5
  else 0

/-- Spec: `+10` per individual (space-separated) query word found as a
substring of the display name, case-insensitively. -/
def specWordBonus (displayName query : String) : ℚ :=
  10 * ((query.toLower.splitOn (" ")).filter
    (fun word => jsIncludes displayName.toLower word)).length

/-- Spec: `relevanceScore` is the sum of importance×10 (0 if absent), +50
on a verbatim case-insensitive match, the per-word bonus, the distance
bonus and the type bonus. -/
def specRelevanceScore (item : SearchItem) (query : String) (distance : Option ℚ) : ℚ :=
  jsOrQ item.importance 0 * 10
  + (if jsIncludes item.display_name.toLower query.toLower then 50 else 0)
  + specWordBonus item.display_name query
  + specDistanceBonus distance
  + specTypeBonus item.type

/-- Spec: name-assembly components in priority order — house-number+road,
else road alone; then suburb, else neighbourhood; then city, else town,
else village; then state; then country — absent (falsy) fields omitted. -/
def specNameParts (address : Address) : List String :=
  (if truthy address.house_number && truthy address.road then
    [address.house_number.getD ("") ++ (" ") ++ address.road.getD ("")]
   else if truthy address.road then [address.road.getD ("")] else [])
  ++ (if truthy address.suburb then [address.suburb.getD ("")]
      else if truthy address.neighbourhood then [address.neighbourhood.getD ("")] else [])
  ++ (if truthy address.city then [address.city.getD ("")]
      else if truthy address.town then [address.town.getD ("")]
      else if truthy address.village then [address.village.getD ("")] else [])
  ++ (if truthy address.state then [address.state.getD ("")] else [])
  ++ (if truthy address.country then [address.country.getD ("")] else [])

/-! ### The haversine distance (`calculateDistance`)

The only genuinely real-valued computation; modelled over `ℝ`. -/

/-- JS `Math.atan2(y, x)` over `ℝ` (signed zeros do not exist in `ℝ`;
`atan2(0, 0) = 0` as in JS). -/
noncomputable def jsAtan2 (y x : ℝ) : ℝ :=
  if 0 < x then Real.arctan (y / x)
  else if x < 0 then
    (if 0 ≤ y then Real.arctan (y / x) + Real.pi else Real.arctan (y / x) - Real.pi)
  else if 0 < y then Real.pi / 2
  else if y < 0 then -(Real.pi / 2)
  else 0

/-- The intermediate `a` of `calculateDistance` (locationService.js lines
472-474): `sin²(dLat/2) + cos(lat1·π/180)·cos(lat2·π/180)·sin²(dLon/2)`. -/
noncomputable def haversineA (lat1 lon1 lat2 lon2 : ℝ) : ℝ :=
  Real.sin ((lat2 - lat1) * Real.pi / 180 / 2) * Real.sin ((lat2 - lat1) * Real.pi / 180 / 2)
  + Real.cos (lat1 * Real.pi / 180) * Real.cos (lat2 * Real.pi / 180)
    * Real.sin ((lon2 - lon1) * Real.pi / 180 / 2) * Real.sin ((lon2 - lon1) * Real.pi / 180 / 2)

/-- `calculateDistance` (locationService.js lines 468-477): Earth radius
6371 km, `c = 2·atan2(√a, √(1−a))`, result `R·c`. -/
noncomputable def calculateDistance (lat1 lon1 lat2 lon2 : ℝ) : ℝ :=
  6371 * (2 * jsAtan2 (Real.sqrt (haversineA lat1 lon1 lat2 lon2))
    (Real.sqrt (1 - haversineA lat1 lon1 lat2 lon2)))

/-! ### Helper lemmas (shared) -/

/-- The coordinate pair (91, 0) is rejected by the validator. -/
theorem isValidCoordinates_91_0 : isValidCoordinates (.num 91) (.num 0) = false := by
  have h : decide ((91 : ℚ) ≤ 90) = false := decide_eq_false (by norm_num)
  simp [isValidCoordinates, h]

/-- A validator result of `true` yields the spec-side validity predicate. -/
theorem isValidCoordinates_true_iff (a b : JsNum) :
    isValidCoordinates a b = true ↔ coordValid a b := by
  constructor
  · intro h
    cases a with
    | nan => simp [isValidCoordinates] at h
    | num la =>
      cases b with
      | nan => simp [isValidCoordinates] at h
      | num lb =>
        simp only [isValidCoordinates, Bool.and_eq_true, decide_eq_true_eq] at h
        exact ⟨la, lb, rfl, rfl, h.1.1.1, h.1.1.2, h.1.2, h.2⟩
  · rintro ⟨la, lb, rfl, rfl, h1, h2, h3, h4⟩
    simp only [isValidCoordinates, Bool.and_eq_true, decide_eq_true_eq]
    exact ⟨⟨⟨h1, h2⟩, h3⟩, h4⟩

/-- `calculateRelevanceScore` decomposes into the spec's sum of bonuses. -/
theorem relevanceScore_decomposition (item : SearchItem) (query : String) (d : Option ℚ) :
    calculateRelevanceScore item query d = specRelevanceScore item query d := by
  rcases d with _ | dd <;>
  simp only [calculateRelevanceScore, specRelevanceScore, specWordBonus, specDistanceBonus,
    specTypeBonus] <;>
  split_ifs <;> push_cast <;> ring

/-- Truthiness distributes over the JS `||` chain. -/
theorem truthy_jsOr (a b : Option String) : truthy (jsOr a b) = (truthy a || truthy b) := by
  unfold jsOr
  cases h : truthy a <;> simp [h]

/-- Selecting from a JS `||` chain is the nested first-truthy choice. -/
theorem jsOrS_jsOr (a b : Option String) (d : String) :
    jsOrS (jsOr a b) d = if truthy a then a.getD ("") else jsOrS b d := by
  unfold jsOr jsOrS
  cases h : truthy a <;> simp [h]

/-- A conditional push onto an accumulator is appending a conditional
singleton. -/
theorem push_if (b : Bool) (l : List String) (x : String) :
    (if b = true then l ++ [x] else l) = l ++ (if b = true then [x] else []) := by
  cases b <;> simp

/-- A two-armed conditional push onto an accumulator is appending a
two-armed conditional singleton. -/
theorem push_if2 (b1 b2 : Bool) (l : List String) (x y : String) :
    (if b1 = true then l ++ [x] else if b2 = true then l ++ [y] else l) =
      l ++ (if b1 = true then [x] else if b2 = true then [y] else []) := by
  cases b1 <;> cases b2 <;> simp

/-- The source's push of the truthy `city || town || village` chain equals
the spec's nested first-truthy choice. -/
theorem jsOr_chain3 (c t v : Option String) :
    (if truthy (jsOr (jsOr c t) v) = true then [jsOrS (jsOr (jsOr c t) v) ("")] else []) =
      (if truthy c = true then [c.getD ("")]
       else if truthy t = true then [t.getD ("")]
       else if truthy v = true then [v.getD ("")] else []) := by
  cases hc : truthy c <;> cases ht : truthy t <;> cases hv : truthy v <;>
    simp [jsOr, jsOrS, hc, ht, hv]

/-- The sequential pushes of the source build exactly the spec's priority
list of name components. -/
theorem assembleLocationParts_eq_spec (address : Address) :
    assembleLocationParts address = specNameParts address := by
  unfold assembleLocationParts specNameParts
  dsimp only
  rw [push_if2, push_if2, push_if, push_if, push_if, jsOr_chain3]
  simp [List.append_assoc]

/-- The haversine intermediate `a` is symmetric in its two coordinates. -/
theorem haversineA_symm (lat1 lon1 lat2 lon2 : ℝ) :
    haversineA lat1 lon1 lat2 lon2 = haversineA lat2 lon2 lat1 lon1 := by
  unfold haversineA
  rw [show (lat1 - lat2) * Real.pi / 180 / 2 = -((lat2 - lat1) * Real.pi / 180 / 2) by ring,
      show (lon1 - lon2) * Real.pi / 180 / 2 = -((lon2 - lon1) * Real.pi / 180 / 2) by ring,
      Real.sin_neg, Real.sin_neg]
  ring

/-! ### Claims -/

/-- C1 (corrected, counterexample): at the invalid coordinate (91, 0) —
latitude outside [-90, 90] — `getLocationName` still issues the provider
request (trace flag `true`) and resolves to a plain result instead of
raising `InvalidCoordinate`. -/
theorem getLocationName_invalid_coordinate_still_fetches :
    isValidCoordinates (.num 91) (.num 0) = false ∧
    (getLocationNameTrace 91 0
      (fun _ _ => FetchOutcome.http 200 ⟨none, some ("Springfield"), none, none⟩)).1 = true ∧
    (getLocationNameTrace 91 0
      (fun _ _ => FetchOutcome.http 200 ⟨none, some ("Springfield"), none, none⟩)).2.name
      = ("Springfield") := by
  exact ⟨isValidCoordinates_91_0, rfl, rfl⟩

/-- C1 (amended): `isValidCoordinates` classifies exactly the coordinate
pairs with a NaN/non-numeric component or a component out of range as
invalid, but `getLocationName` never consults it: for every coordinate,
valid or not, the provider request is issued and a result is resolved
without raising. -/
theorem getLocationName_no_validation (a b : JsNum) (lat lon : ℚ)
    (fetch : ℚ → ℚ → FetchOutcome) :
    (¬ coordValid a b → isValidCoordinates a b = false) ∧
    getLocationNameTrace lat lon fetch = (true, getLocationName lat lon (fetch lat lon)) := by
  refine ⟨?_, rfl⟩
  intro hinv
  cases h : isValidCoordinates a b with
  | false => rfl
  | true => exact absurd ((isValidCoordinates_true_iff a b).mp h) hinv

/-- C1 witness. -/
theorem getLocationName_no_validation_witness :
    isValidCoordinates (.num 91) (.num 0) = false ∧
    getLocationNameTrace 91 0 (fun _ _ => FetchOutcome.networkError ("offline")) =
      (true, getLocationName 91 0 (FetchOutcome.networkError ("offline"))) := by
  obtain ⟨h1, h2⟩ := getLocationName_no_validation (.num 91) (.num 0) 91 0
    (fun _ _ => FetchOutcome.networkError ("offline"))
  refine ⟨h1 ?_, h2⟩
  rintro ⟨la, lb, ha, hb, hc, hd, he, hf⟩
  injection ha with ha'
  rw [← ha'] at hd
  norm_num at hd

/-- C2 (confirmed): whenever the body of `getLocationName` throws — any
provider error or empty payload — the function resolves (never throws) to
the ResolvedPlace built from the formatted coordinate, with the
"Unknown …" placeholders, confidence 0.1 and the error reason recorded. -/
theorem getLocationName_error_resolves_to_fallback (lat lon : ℚ) (resp : FetchOutcome)
    (msg : String) (h : getLocationNameBody lat lon resp = .error msg) :
    getLocationName lat lon resp =
      { name := toFixed 4 lat ++ (", ") ++ toFixed 4 lon
        fullAddress := ("Coordinates: ") ++ toFixed 6 lat ++ (", ") ++ toFixed 6 lon
        city := ("Unknown City")
        state := ("Unknown State")
        country := ("Unknown Country")
        coordinates := (lat, lon)
        accuracy := 1/10
        error := some msg } := by
  unfold getLocationName
  rw [h]
  rfl

/-- C2 witness. -/
theorem getLocationName_error_resolves_to_fallback_witness :
    getLocationNameBody 1 2 (FetchOutcome.http 500 ⟨none, none, none, none⟩) =
      .error ("HTTP error! status: 500") ∧
    getLocationName 1 2 (FetchOutcome.http 500 ⟨none, none, none, none⟩) =
      { name := toFixed 4 1 ++ (", ") ++ toFixed 4 2
        fullAddress := ("Coordinates: ") ++ toFixed 6 1 ++ (", ") ++ toFixed 6 2
        city := ("Unknown City")
        state := ("Unknown State")
        country := ("Unknown Country")
        coordinates := (1, 2)
        accuracy := 1/10
        error := some ("HTTP error! status: 500") } :=
  ⟨rfl, getLocationName_error_resolves_to_fallback 1 2
    (FetchOutcome.http 500 ⟨none, none, none, none⟩) ("HTTP error! status: 500") rfl⟩

/-- C3 (confirmed): the relevance score of every candidate is exactly the
sum of importance×10 (0 when absent), +50 for a verbatim case-insensitive
match of the query in the display name, +10 per space-separated query word
found as a substring, the distance bonus (30/20/10/5 by bucket, only when
the distance is known), and the place-type bonus (15/12/8/5/0). -/
theorem calculateRelevanceScore_eq_spec_sum (item : SearchItem) (query : String)
    (distance : Option ℚ) :
    calculateRelevanceScore item query distance =
      jsOrQ item.importance 0 * 10
      + (if jsIncludes item.display_name.toLower query.toLower then 50 else 0)
      + specWordBonus item.display_name query
      + specDistanceBonus distance
      + specTypeBonus item.type := by
  rw [relevanceScore_decomposition]
  rfl

/-- C4 (confirmed): the search-ordering comparator prefers, for two
candidates with known distances less than 1 km apart, the higher relevance
score; for known distances at least 1 km apart, the smaller distance; and
otherwise the higher relevance score.  In particular a 0.9 km candidate
with relevance 90 precedes a 0.5 km candidate with relevance 40, and a
2 km candidate precedes a 30 km one regardless of relevance. -/
theorem searchSort_comparator_spec (a b : SearchResult) :
    (∀ da db, a.distance = some da → b.distance = some db →
      ((|da - db| < 1 → compareResults a b = b.relevanceScore - a.relevanceScore) ∧
       (1 ≤ |da - db| → compareResults a b = da - db))) ∧
    ((a.distance = none ∨ b.distance = none) →
      compareResults a b = b.relevanceScore - a.relevanceScore) ∧
    (a.distance = some (1/2) → a.relevanceScore = 40 →
      b.distance = some (9/10) → b.relevanceScore = 90 → 0 < compareResults a b) ∧
    (a.distance = some 2 → b.distance = some 30 → compareResults a b < 0) := by
  refine ⟨?_, ?_, ?_, ?_⟩
  · intro da db ha hb
    constructor
    · intro hlt
      simp only [compareResults, ha, hb]
      rw [if_pos hlt]
    · intro hge
      simp only [compareResults, ha, hb]
      rw [if_neg (not_lt.mpr hge)]
  · intro h
    rcases h with h | h
    · simp [compareResults, h]
    · rcases hA : a.distance with _ | da <;> simp [compareResults, h, hA]
  · intro h1 h2 h3 h4
    have habs : |(1 : ℚ)/2 - 9/10| < 1 := by rw [abs_lt]; constructor <;> norm_num
    simp only [compareResults, h1, h3]
    rw [if_pos habs, h2, h4]
    norm_num
  · intro h1 h2
    have habs : ¬ |(2 : ℚ) - 30| < 1 := by
      rw [show (2 : ℚ) - 30 = -28 by norm_num, abs_neg,
          abs_of_nonneg (by norm_num : (0 : ℚ) ≤ 28)]
      norm_num
    simp only [compareResults, h1, h2]
    rw [if_neg habs]
    norm_num

/-- C4 witness. -/
theorem searchSort_comparator_spec_witness :
    0 < compareResults
      ⟨("a"), (0, 0), 0, none, none, some (1/2), 40⟩
      ⟨("b"), (0, 0), 0, none, none, some (9/10), 90⟩ ∧
    compareResults
      ⟨("a"), (0, 0), 0, none, none, some 2, 100⟩
      ⟨("b"), (0, 0), 0, none, none, some 30, 0⟩ < 0 :=
  ⟨(searchSort_comparator_spec _ _).2.2.1 rfl rfl rfl rfl,
   (searchSort_comparator_spec _ _).2.2.2 rfl rfl⟩

/-- C5 (confirmed): the haversine distance with Earth radius 6371 km is
symmetric, and the distance from any coordinate to itself is 0. -/
theorem calculateDistance_symm_and_self_zero :
    (∀ lat1 lon1 lat2 lon2 : ℝ,
      calculateDistance lat1 lon1 lat2 lon2 = calculateDistance lat2 lon2 lat1 lon1) ∧
    (∀ lat lon : ℝ, calculateDistance lat lon lat lon = 0) := by
  constructor
  · intro lat1 lon1 lat2 lon2
    unfold calculateDistance
    rw [haversineA_symm]
  · intro lat lon
    have hA : haversineA lat lon lat lon = 0 := by
      unfold haversineA
      rw [show (lat - lat) * Real.pi / 180 / 2 = 0 by ring,
          show (lon - lon) * Real.pi / 180 / 2 = 0 by ring, Real.sin_zero]
      ring
    unfold calculateDistance
    rw [hA, Real.sqrt_zero, sub_zero, Real.sqrt_one]
    unfold jsAtan2
    rw [if_pos one_pos, zero_div, Real.arctan_zero]
    ring

/-- C6 (confirmed): whatever the provider returns and whatever distance
function is used, the search pipeline returns at most 8 candidates. -/
theorem searchLocationsResults_length_le_eight (distFn : ℚ → ℚ → ℚ → ℚ → ℚ)
    (query : String) (currentLocation : Option (ℚ × ℚ)) (data : List SearchItem) :
    (searchLocationsResults distFn query currentLocation data).length ≤ 8 := by
  unfold searchLocationsResults
  rw [List.length_take]
  exact inf_le_left

/-- C7 (corrected, counterexample): with a provider that fails on every
attempt (HTTP 500), the retry wrapper performs exactly one provider
attempt — not three — and immediately returns the degraded fallback
result: `getLocationName` swallows the error before the wrapper's retry
logic can see it. -/
theorem getLocationNameWithRetry_no_retry_on_provider_error :
    getLocationNameWithRetry 1 2 (fun _ => FetchOutcome.http 500 ⟨none, none, none, none⟩) =
      (1, Except.ok (fallbackResult 1 2 ("HTTP error! status: 500"))) := by
  unfold getLocationNameWithRetry
  rw [getLocationNameWithRetryAux]
  rfl

/-- C7 (amended): `getLocationName` catches every provider error and empty
payload internally and returns the degraded ResolvedPlace on the very
first attempt, so `getLocationNameWithRetry` always performs exactly one
provider attempt and resolves to that first result; its retry/backoff
branch is unreachable for provider errors. -/
theorem getLocationNameWithRetry_single_attempt (lat lon : ℚ)
    (responses : ℕ → FetchOutcome) :
    getLocationNameWithRetry lat lon responses =
      (1, Except.ok (getLocationName lat lon (responses 0))) := by
  unfold getLocationNameWithRetry
  rw [getLocationNameWithRetryAux]
  rfl

/-- C8 (confirmed): when the provider payload is well-formed (2xx, no error
field, truthy display name), the resolved name is the ", "-join of the
structured components in priority order — house-number+road else road;
suburb else neighbourhood; city else town else village; state; country —
omitting absent (falsy) fields, and falls back to the full display name
when no structured field contributes. -/
theorem getLocationName_name_assembly_priority (lat lon : ℚ) (status : ℕ)
    (data : ReverseResponse) (h1 : 200 ≤ status) (h2 : status < 300)
    (herr : truthy data.error = false) (hdisp : truthy data.display_name = true) :
    (getLocationName lat lon (.http status data)).name =
      (if specNameParts (data.address.getD emptyAddress) = [] then data.display_name.getD ("")
       else String.intercalate (", ") (specNameParts (data.address.getD emptyAddress))) := by
  simp only [getLocationName, getLocationNameBody]
  rw [if_neg (not_not_intro ⟨h1, h2⟩)]
  rw [if_neg (by rw [herr]; exact Bool.false_ne_true)]
  rw [if_neg (by rintro ⟨hnd, _⟩; rw [hdisp] at hnd; exact hnd rfl)]
  simp only [assembleLocationParts_eq_spec]
  rcases hp : specNameParts (data.address.getD emptyAddress) with _ | ⟨p, ps⟩
  · simp [hp, jsOrS, hdisp]
  · simp [hp]

/-- C8 witness. -/
theorem getLocationName_name_assembly_priority_witness :
    (getLocationName 1 2 (.http 200
      ⟨none, some ("Springfield, Illinois, USA"),
        some ⟨none, some ("Main St"), none, none, some ("Springfield"), none, none, none, none⟩,
        none⟩)).name =
      (if specNameParts ((some ⟨none, some ("Main St"), none, none, some ("Springfield"),
          none, none, none, none⟩ : Option Address).getD emptyAddress) = []
       then (some ("Springfield, Illinois, USA") : Option String).getD ("")
       else String.intercalate (", ")
         (specNameParts ((some ⟨none, some ("Main St"), none, none, some ("Springfield"),
           none, none, none, none⟩ : Option Address).getD emptyAddress))) :=
  getLocationName_name_assembly_priority 1 2 200
    ⟨none, some ("Springfield, Illinois, USA"),
      some ⟨none, some ("Main St"), none, none, some ("Springfield"), none, none, none, none⟩,
      none⟩
    (by decide) (by decide) rfl rfl

/-- C9 (corrected, counterexample): `setManualLocation` accepts the invalid
coordinate (91, 0) — it does not fail with `InvalidCoordinate`: the final
state has no error and stores the invalid coordinate with accuracy null. -/
theorem setManualLocation_accepts_invalid_coordinate :
    isValidCoordinates (.num 91) (.num 0) = false ∧
    (setManualLocation 91 0 (FetchOutcome.http 500 ⟨none, none, none, none⟩)
      ⟨none, none, false, none⟩).error = none ∧
    (setManualLocation 91 0 (FetchOutcome.http 500 ⟨none, none, none, none⟩)
      ⟨none, none, false, none⟩).location = some (91, 0, none) :=
  ⟨isValidCoordinates_91_0, rfl, rfl⟩

/-- C9 (amended): `setManualLocation` performs no coordinate validation:
for every coordinate, valid or not, it stores the location with accuracy
null, stores the reverse-geocoded name, clears the error and ends not
loading. -/
theorem setManualLocation_no_validation (lat lon : ℚ) (resp : FetchOutcome) (s : GeoState) :
    setManualLocation lat lon resp s =
      { location := some (lat, lon, none)
        locationName := some (getLocationName lat lon resp)
        loading := false
        error := none } := rfl

/-- C10 (confirmed): knowing a candidate's distance never lowers its score:
every distance bucket, including the far one, adds at least +5, so the
score with any known distance strictly exceeds the score with distance
null for the same item and query. -/
theorem relevanceScore_distance_bonus_positive (item : SearchItem) (query : String) (d : ℚ) :
    calculateRelevanceScore item query none < calculateRelevanceScore item query (some d) := by
  rw [relevanceScore_decomposition, relevanceScore_decomposition]
  simp only [specRelevanceScore, specDistanceBonus]
  split_ifs <;> linarith
